import Mathlib

/-! Verification development for the open-cloud-ops repository.

Shallow embedding of the governance policy engine, the review combiner,
the optimization engine, the bash security hook, and the (spec-described)
workflow execution engine, together with theorems settling the frozen
claims about them. -/

/-- JSON-like values, used to model Python dict/list payloads. -/
inductive Json where
  | null : Json
  | str (s : String) : Json
  | num (n : Int) : Json
  | bool (b : Bool) : Json
  | arr (xs : List Json) : Json
  | obj (fields : List (String × Json)) : Json
deriving Repr

namespace Policy

/-- Supported policy types (engine.py POLICY_TYPES). -/
def POLICY_TYPES : List String :=
  ["budget_limit", "tag_compliance", "region_restriction", "service_allowlist"]

/-- sorted(POLICY_TYPES), as rendered into the ValueError message. -/
def POLICY_TYPES_sorted : List String :=
  ["budget_limit", "region_restriction", "service_allowlist", "tag_compliance"]

/-- Python repr of a list of strings, e.g. [\x27a\x27, \x27b\x27]. -/
def pyStrListRepr (xs : List String) : String :=
  "[" ++ String.intercalate ", " (xs.map (fun s => "\x27" ++ s ++ "\x27")) ++ "]"

/-- A persisted GovernancePolicy row (pkg.database.GovernancePolicy);
`id` models the generated UUID. -/
structure GovernancePolicy where
  id : Nat
  name : String
  description : String
  policy_type : String
  rules : Json
  severity : String
  enabled : Bool
deriving Repr

/-- The ValueError message raised for an unknown policy type. -/
def unknown_policy_type_msg (policy_type : String) : String :=
  "Unknown policy_type \x27" ++ policy_type ++ "\x27. Must be one of: " ++
    pyStrListRepr POLICY_TYPES_sorted

/-- PolicyEngine.create_policy: validates the policy type, then constructs the
policy and, when a session is given, persists it.  The returned pair is the
outcome (the raised ValueError modelled as `Except.error`) together with the
resulting session contents; the session is modelled as the list of persisted
policies. -/
def create_policy (newId : Nat) (name description policy_type : String)
    (rules : Json) (severity : String) (db : Option (List GovernancePolicy)) :
    Except String GovernancePolicy × Option (List GovernancePolicy) :=
  if policy_type ∈ POLICY_TYPES then
    let policy : GovernancePolicy :=
      { id := newId, name := name, description := description,
        policy_type := policy_type, rules := rules, severity := severity,
        enabled := true }
    match db with
    | none => (Except.ok policy, none)
    | some session => (Except.ok policy, some (session ++ [policy]))
  else
    (Except.error (unknown_policy_type_msg policy_type), db)

/-- An HTTP response from the FastAPI layer. -/
inductive HttpResult (α : Type) where
  | ok (status : Nat) (body : α) : HttpResult α
  | err (status : Nat) (detail : String) : HttpResult α
deriving Repr, DecidableEq

/-- POST /governance/policies (api/routes.py create_policy): calls the engine
and maps a ValueError to HTTP 400. -/
def create_policy_route (newId : Nat) (name description policy_type : String)
    (rules : Json) (severity : String) (db : List GovernancePolicy) :
    HttpResult GovernancePolicy × List GovernancePolicy :=
  match create_policy newId name description policy_type rules severity (some db) with
  | (Except.ok p, db') => (HttpResult.ok 201 p, db'.getD db)
  | (Except.error e, _) => (HttpResult.err 400 e, db)

/-- C1: creating a policy with a policy_type outside the four supported types
fails fast with a ValueError (HTTP 400 at the route), no GovernancePolicy is
constructed or persisted, and the database session is left unchanged. -/
theorem create_policy_invalid_type_fails_fast
    (newId : Nat) (name description policy_type : String) (rules : Json)
    (severity : String) (db : List GovernancePolicy)
    (h : policy_type ∉ POLICY_TYPES) :
    create_policy newId name description policy_type rules severity (some db)
      = (Except.error (unknown_policy_type_msg policy_type), some db)
    ∧ create_policy_route newId name description policy_type rules severity db
      = (HttpResult.err 400 (unknown_policy_type_msg policy_type), db) := by
  have h1 : create_policy newId name description policy_type rules severity (some db)
      = (Except.error (unknown_policy_type_msg policy_type), some db) := by
    simp [create_policy, h]
  refine ⟨h1, ?_⟩
  simp [create_policy_route, h1]

/-- C1 witness: the invalid policy type "cost_cap" is rejected with a 400 and
the session is untouched. -/
theorem create_policy_invalid_type_fails_fast_witness :
    create_policy 7 "cap" "d" "cost_cap" Json.null "warning" (some [])
      = (Except.error (unknown_policy_type_msg "cost_cap"), some [])
    ∧ create_policy_route 7 "cap" "d" "cost_cap" Json.null "warning" []
      = (HttpResult.err 400 (unknown_policy_type_msg "cost_cap"), []) :=
  create_policy_invalid_type_fails_fast 7 "cap" "d" "cost_cap" Json.null
    "warning" [] (by decide)

end Policy

namespace Reviews

/-- A parsed review JSON object; `decision` is the optional "decision" key. -/
structure Review where
  decision : Option String
deriving Repr, DecidableEq

/-- review.get("decision", "COMMENT") -/
def review_decision (r : Review) : String := r.decision.getD "COMMENT"

/-- The decisions list the script collects: the decision of each present
review, gemini first, then codex. -/
def present_decisions (gemini codex : Option Review) : List String :=
  (gemini.toList).map review_decision ++ (codex.toList).map review_decision

/-- combine_reviews.determine_decision: combines the decisions of the present
reviews. -/
def determine_decision (gemini codex : Option Review) : String :=
  let decisions : List String := present_decisions gemini codex
  if "REQUEST_CHANGES" ∈ decisions then "REQUEST_CHANGES"
  else if decisions.all (fun d => d == "APPROVE") && !decisions.isEmpty then "APPROVE"
  else "COMMENT"

/-- C10: determine_decision returns REQUEST_CHANGES if some present review
decides REQUEST_CHANGES, returns APPROVE only when at least one review is
present and all present reviews decide APPROVE, and returns COMMENT in every
other case (including when both reviews are absent). -/
theorem determine_decision_spec (gemini codex : Option Review) :
    ("REQUEST_CHANGES" ∈ present_decisions gemini codex →
      determine_decision gemini codex = "REQUEST_CHANGES")
    ∧ (determine_decision gemini codex = "APPROVE" →
        present_decisions gemini codex ≠ [] ∧
        ∀ d ∈ present_decisions gemini codex, d = "APPROVE")
    ∧ (("REQUEST_CHANGES" ∉ present_decisions gemini codex ∧
        ¬ (present_decisions gemini codex ≠ [] ∧
           ∀ d ∈ present_decisions gemini codex, d = "APPROVE")) →
        determine_decision gemini codex = "COMMENT") := by
  simp only [determine_decision]
  generalize present_decisions gemini codex = L
  refine ⟨?_, ?_, ?_⟩
  · intro hmem
    rw [if_pos hmem]
  · intro happ
    by_cases hrc : "REQUEST_CHANGES" ∈ L
    · rw [if_pos hrc] at happ; exact absurd happ (by decide)
    · rw [if_neg hrc] at happ
      by_cases hall : (L.all (fun d => d == "APPROVE") && !L.isEmpty) = true
      · have h1 := (Bool.and_eq_true _ _).mp hall
        constructor
        · intro hnil
          rw [hnil] at h1
          exact absurd h1.2 (by decide)
        · intro d hd
          have h2 := h1.1
          rw [List.all_eq_true] at h2
          simpa using h2 d hd
      · rw [if_neg hall] at happ; exact absurd happ (by decide)
  · intro h
    obtain ⟨hrc, hother⟩ := h
    rw [if_neg hrc]
    rw [if_neg ?_]
    intro hall
    apply hother
    have h1 := (Bool.and_eq_true _ _).mp hall
    constructor
    · intro hnil
      rw [hnil] at h1
      exact absurd h1.2 (by decide)
    · intro d hd
      have h2 := h1.1
      rw [List.all_eq_true] at h2
      simpa using h2 d hd

/-- C10 witness: a REQUEST_CHANGES from Gemini dominates even when Codex
approves; two absent reviews yield COMMENT. -/
theorem determine_decision_spec_witness :
    determine_decision (some ⟨some "REQUEST_CHANGES"⟩) (some ⟨some "APPROVE"⟩)
      = "REQUEST_CHANGES"
    ∧ determine_decision none none = "COMMENT" :=
  ⟨(determine_decision_spec (some ⟨some "REQUEST_CHANGES"⟩)
      (some ⟨some "APPROVE"⟩)).1 (by decide),
   (determine_decision_spec none none).2.2 (by decide)⟩

end Reviews

namespace Optimizer

/-- A cost line item (a dict); absent keys are `none`.  The `date` field holds
the result of _parse_date as a day number, `none` when missing or
unparseable.  Money and usage amounts are modelled as rationals. -/
structure CostRecord where
  resource_id : Option String
  cost_usd : Option ℚ
  usage_quantity : Option ℚ
  provider : Option String
  service : Option String
  date : Option Int

/-- A cloud resource record (a dict); absent keys are `none`. -/
structure ResourceRecord where
  resource_id : Option String
  resource_type : Option String
  provider : Option String
  cpu_avg : Option ℚ
  memory_avg : Option ℚ
  instance_type : Option String
  lifecycle : Option String
  preemptible : Option Bool

/-- An OptimizationRecommendation row.  The generated UUID and the
title/description presentation strings are not modelled. -/
structure Recommendation where
  provider : String
  resource_id : String
  resource_type : String
  recommendation_type : String
  estimated_monthly_savings : ℚ
  confidence : ℚ
  status : String
deriving Repr, DecidableEq

/-- round(x, 2). -/
def round2 (q : ℚ) : ℚ := (round (q * 100) : ℤ) / 100

/-- Ordered-dict upsert: update the binding of `k` in place, or append a
fresh one, preserving first-insertion iteration order (Python dict). -/
def upsert {β : Type} (e : β) (f : β → β) (k : String) :
    List (String × β) → List (String × β)
  | [] => [(k, f e)]
  | (k', v) :: rest =>
      if k' = k then (k', f v) :: rest else (k', v) :: upsert e f k rest

/-- Aggregation bucket of analyze_idle_resources. -/
structure IdleBucket where
  cost : ℚ
  usage : ℚ
  days : Nat
  provider : String
  service : String

/-- Per-resource cost aggregation over the last 30 days. -/
def idleTotals (today : Int) (costs : List CostRecord) :
    List (String × IdleBucket) :=
  costs.foldl (fun acc c =>
    match c.date with
    | some d =>
        if d ≥ today - 30 then
          upsert ⟨0, 0, 0, "", ""⟩
            (fun b =>
              { cost := b.cost + c.cost_usd.getD 0,
                usage := b.usage + c.usage_quantity.getD 0,
                days := b.days + 1,
                provider := c.provider.getD "",
                service := c.service.getD "" })
            (c.resource_id.getD "") acc
        else acc
    | none => acc) []

/-- OptimizationEngine.analyze_idle_resources. -/
def analyze_idle_resources (today : Int) (costs : List CostRecord) :
    List Recommendation :=
  (idleTotals today costs).filterMap (fun kv =>
    let days : ℚ := ((max kv.2.days 1 : Nat) : ℚ)
    let avg_daily_cost := kv.2.cost / days
    let avg_daily_usage := kv.2.usage / days
    if avg_daily_cost < 1 ∧ avg_daily_usage < 1/20 ∧ kv.2.cost > 0 then
      some { provider := kv.2.provider, resource_id := kv.1,
             resource_type := kv.2.service,
             recommendation_type := "idle_resource",
             estimated_monthly_savings := round2 (avg_daily_cost * 30),
             confidence := 17/20, status := "open" }
    else none)

/-- OptimizationEngine.analyze_rightsizing. -/
def analyze_rightsizing (resources : List ResourceRecord) :
    List Recommendation :=
  resources.filterMap (fun r =>
    if r.cpu_avg = none ∧ r.memory_avg = none then none
    else
      let over_cpu : Bool := r.cpu_avg.elim false (fun c => decide (c < 1/5))
      let over_mem : Bool := r.memory_avg.elim false (fun m => decide (m < 1/4))
      if over_cpu || over_mem then
        let utilization := max (r.cpu_avg.getD 0) (r.memory_avg.getD 0)
        let savings_factor := max (min (1 - utilization / (1/2)) (3/5)) (1/10)
        some { provider := r.provider.getD "unknown",
               resource_id := r.resource_id.getD "unknown",
               resource_type := r.resource_type.getD "unknown",
               recommendation_type := "rightsizing",
               estimated_monthly_savings := round2 (savings_factor * 100),
               confidence := 3/4, status := "open" }
      else none)

/-- Aggregation bucket of analyze_reserved_capacity; `days` is the set of
distinct spend dates (insertion ordered). -/
structure SvcBucket where
  total : ℚ
  days : List Int
  provider : String

/-- Per provider:service cost aggregation over the last 60 days. -/
def serviceCosts (today : Int) (costs : List CostRecord) :
    List (String × SvcBucket) :=
  costs.foldl (fun acc c =>
    match c.date with
    | some d =>
        if d ≥ today - 60 then
          upsert ⟨0, [], ""⟩
            (fun b =>
              { total := b.total + c.cost_usd.getD 0,
                days := if d ∈ b.days then b.days else b.days ++ [d],
                provider := c.provider.getD "" })
            (c.provider.getD "" ++ ":" ++ c.service.getD "") acc
        else acc
    | none => acc) []

/-- key.split(":", 1). -/
def splitFirstColon (key : String) : String × String :=
  match key.splitOn ":" with
  | [] => (key, "")
  | [x] => (x, "")
  | x :: rest => (x, String.intercalate ":" rest)

/-- OptimizationEngine.analyze_reserved_capacity. -/
def analyze_reserved_capacity (today : Int) (costs : List CostRecord) :
    List Recommendation :=
  (serviceCosts today costs).filterMap (fun kv =>
    let ps := splitFirstColon kv.1
    let num_days := kv.2.days.length
    if num_days < 30 then none
    else
      let avg_daily := kv.2.total / (num_days : ℚ)
      let consistency := (num_days : ℚ) / 60
      if consistency ≥ 7/10 ∧ avg_daily > 5 then
        some { provider := ps.1, resource_id := ps.1 ++ ":" ++ ps.2,
               resource_type := ps.2,
               recommendation_type := "reserved_capacity",
               estimated_monthly_savings := round2 (avg_daily * 30 * (3/10)),
               confidence := 4/5, status := "open" }
      else none)

/-- Resource types eligible for spot/preemptible pricing. -/
def SPOT_ELIGIBLE_TYPES : List String :=
  ["ec2:instance", "compute:instance", "batch", "emr"]

/-- OptimizationEngine.analyze_spot_opportunities. -/
def analyze_spot_opportunities (resources : List ResourceRecord) :
    List Recommendation :=
  resources.filterMap (fun r =>
    let rtype := r.resource_type.getD ""
    if rtype ∉ SPOT_ELIGIBLE_TYPES then none
    else if r.lifecycle = some "spot" then none
    else if r.preemptible = some true then none
    else
      some { provider := r.provider.getD "unknown",
             resource_id := r.resource_id.getD "unknown",
             resource_type := rtype,
             recommendation_type := "spot_instance",
             estimated_monthly_savings := round2 50,
             confidence := 3/5, status := "open" })

/-- The deduplication key (provider, resource_id, recommendation_type). -/
def recKey (r : Recommendation) : String × String × String :=
  (r.provider, r.resource_id, r.recommendation_type)

/-- The de-duplication loop of generate_recommendations: keep a
recommendation only when its key was not seen before. -/
def dedupRecs : List Recommendation → List (String × String × String) →
    List Recommendation
  | [], _ => []
  | r :: rest, seen =>
      if recKey r ∈ seen then dedupRecs rest seen
      else r :: dedupRecs rest (recKey r :: seen)

/-- OptimizationEngine.generate_recommendations: run the four analyses,
concatenate, and de-duplicate by key. -/
def generate_recommendations (today : Int) (costs : List CostRecord)
    (resources : List ResourceRecord) : List Recommendation :=
  dedupRecs
    (analyze_idle_resources today costs ++ analyze_rightsizing resources ++
      analyze_reserved_capacity today costs ++
      analyze_spot_opportunities resources) []

/-- Specification-side description of first-occurrence restriction: keep each
element and drop every later element sharing its key. -/
def firstOccurrences : List Recommendation → List Recommendation
  | [] => []
  | r :: rest =>
      r :: firstOccurrences (rest.filter (fun x => decide (recKey x ≠ recKey r)))
termination_by l => l.length
decreasing_by
  simp only [List.length_cons]
  exact Nat.lt_succ_of_le (List.length_filter_le _ _)

theorem dedupRecs_eq_firstOccurrences (l : List Recommendation)
    (seen : List (String × String × String)) :
    dedupRecs l seen
      = firstOccurrences (l.filter (fun r => decide (recKey r ∉ seen))) := by
  induction l generalizing seen with
  | nil => simp [dedupRecs, firstOccurrences]
  | cons r rest ih =>
    by_cases h : recKey r ∈ seen
    · have h1 : dedupRecs (r :: rest) seen = dedupRecs rest seen := by
        simp [dedupRecs, h]
      have h2 : (r :: rest).filter (fun x => decide (recKey x ∉ seen))
          = rest.filter (fun x => decide (recKey x ∉ seen)) := by
        simp [List.filter_cons, h]
      rw [h1, h2, ih]
    · have h1 : dedupRecs (r :: rest) seen
          = r :: dedupRecs rest (recKey r :: seen) := by
        simp [dedupRecs, h]
      have h2 : (r :: rest).filter (fun x => decide (recKey x ∉ seen))
          = r :: rest.filter (fun x => decide (recKey x ∉ seen)) := by
        simp [List.filter_cons, h]
      rw [h1, h2, firstOccurrences, ih]
      congr 2
      rw [List.filter_filter]
      apply List.filter_congr
      intro x _
      by_cases hx1 : recKey x = recKey r <;> by_cases hx2 : recKey x ∈ seen <;>
        simp [hx1, hx2]

theorem dedupRecs_keys_nodup (l : List Recommendation)
    (seen : List (String × String × String)) :
    ((dedupRecs l seen).map recKey).Nodup ∧
      ∀ k ∈ (dedupRecs l seen).map recKey, k ∉ seen := by
  induction l generalizing seen with
  | nil => simp [dedupRecs]
  | cons r rest ih =>
    by_cases h : recKey r ∈ seen
    · rw [show dedupRecs (r :: rest) seen = dedupRecs rest seen by
        simp [dedupRecs, h]]
      exact ih seen
    · rw [show dedupRecs (r :: rest) seen
          = r :: dedupRecs rest (recKey r :: seen) by simp [dedupRecs, h]]
      obtain ⟨hnd, hout⟩ := ih (recKey r :: seen)
      refine ⟨?_, ?_⟩
      · simp only [List.map_cons, List.nodup_cons]
        refine ⟨fun hmem => ?_, hnd⟩
        exact hout _ hmem (List.mem_cons_self _ _)
      · intro k hk
        simp only [List.map_cons, List.mem_cons] at hk
        rcases hk with rfl | hk
        · exact h
        · intro hks
          exact hout k hk (List.mem_cons_of_mem _ hks)

/-- C9: generate_recommendations never returns two recommendations with the
same (provider, resource_id, recommendation_type) key, and its output is
exactly the concatenation of the four per-analysis outputs restricted to the
first occurrence of each key, in order. -/
theorem generate_recommendations_unique (today : Int)
    (costs : List CostRecord) (resources : List ResourceRecord) :
    generate_recommendations today costs resources
      = firstOccurrences
          (analyze_idle_resources today costs ++ analyze_rightsizing resources
            ++ analyze_reserved_capacity today costs
            ++ analyze_spot_opportunities resources)
    ∧ ((generate_recommendations today costs resources).map recKey).Nodup := by
  constructor
  · rw [generate_recommendations, dedupRecs_eq_firstOccurrences]
    congr 1
    apply List.filter_eq_self.mpr
    intro a _
    simp
  · exact (dedupRecs_keys_nodup _ _).1

end Optimizer

namespace Security

/-! Embedding of tools/autonomous-coding/security.py, including the
CPython shlex tokenizer (posix mode) that extract_commands,
split_command_segments and shlex.split rely on.  Fuel-indexed recursion is
used for the lexer loops; the fuel supplied by the wrappers is sufficient
because every loop iteration consumes input. -/

end Security

namespace Workflow

/-! Modelled from the spec: the workflow execution engine (Definition
Loader, Execution Engine, Gate Subsystem, State Store, Expression
Evaluator) described in the specification is not part of the sources;
the definitions below follow the specification text.  Datetimes are
modelled as UTC epoch seconds (the store serialises ISO-8601 UTC and
normalises timezone-naive values to UTC on read, so a timestamp is one
integer). -/

/-- Step kinds (closed tag set). -/
inductive StepKind where
  | COMMAND | AGENT | SHELL | PARALLEL
deriving Repr, DecidableEq

/-- Gate kinds. -/
inductive GateKind where
  | MANUAL | TIMEOUT | CONDITIONAL
deriving Repr, DecidableEq

/-- Workflow run statuses. -/
inductive WfStatus where
  | NOT_STARTED | RUNNING | PAUSED | COMPLETED | FAILED | CANCELLED
deriving Repr, DecidableEq

/-- Step result statuses. -/
inductive StepStatus where
  | PENDING | RUNNING | COMPLETED | FAILED
deriving Repr, DecidableEq

/-- Modelled from the spec: ApprovalGate attached to a step. -/
structure ApprovalGate where
  kind : GateKind
  message : String
  timeout_seconds : Option Int
  condition : Option String
  fallback : String
  approvers : List String
  notify : Bool
deriving Repr, DecidableEq

/-- Modelled from the spec: WorkflowStep, one unit of work. -/
structure WorkflowStep where
  name : String
  kind : StepKind
  target : String
  inputs : List (String × String)
  outputs : List String
  gate : Option ApprovalGate
  timeout_seconds : Int
  retry_count : Nat
  continue_on_failure : Bool
  depends_on : List String
deriving Repr, DecidableEq

/-- Modelled from the spec: WorkflowDefinition, the immutable template. -/
structure WorkflowDefinition where
  name : String
  description : String
  version : String
  steps : List WorkflowStep
  timeout_seconds : Int
deriving Repr, DecidableEq

/-- Modelled from the spec: StepResult, immutable once finalized; the
output payload is kind-specific JSON. -/
structure StepResult where
  step_name : String
  status : StepStatus
  output : Json
  error : Option String
  started_at : Option Int
  completed_at : Option Int
  duration : Option Int
  retries : Nat
deriving Repr

/-- Modelled from the spec: WorkflowState, one instance per run. -/
structure WorkflowState where
  workflow_name : String
  run_id : String
  status : WfStatus
  current_step : Nat
  step_results : List StepResult
  pending_approval : Option String
  vars : List (String × String)
  started_at : Option Int
  updated_at : Option Int
  completed_at : Option Int
  error : Option String
deriving Repr

/-- Modelled from the spec: ApprovalRequest created when a gate is
reached; pending = neither resolution field set. -/
structure ApprovalRequest where
  run_id : String
  step_name : String
  gate : ApprovalGate
  requested_at : Int
  expires_at : Option Int
  approved_by : Option String
  approved_at : Option Int
  rejected_by : Option String
  rejected_at : Option Int
  rejection_reason : Option String
deriving Repr

/-- Pending = neither resolution field set. -/
def is_pending (r : ApprovalRequest) : Bool :=
  r.approved_by = none && r.rejected_by = none

/-- A character admitted by the run identifier format. -/
def validRunIdChar (c : Char) : Bool :=
  c.isAlpha || c.isDigit || c = '-' || c = '_'

/-- Modelled from the spec: the workflow identifier check (letters,
digits, hyphen, underscore only, non-empty). -/
def is_valid_run_id (s : String) : Bool :=
  s ≠ "" && s.toList.all validRunIdChar

/-- Stripping path components: everything after the last slash. -/
def strip_path_components (p : String) : String :=
  String.mk (p.toList.foldl (fun acc c => if c = '/' then [] else acc ++ [c]) [])

/-- Status to serialised string. -/
def wf_status_str : WfStatus → String
  | WfStatus.NOT_STARTED => "not_started"
  | WfStatus.RUNNING => "running"
  | WfStatus.PAUSED => "paused"
  | WfStatus.COMPLETED => "completed"
  | WfStatus.FAILED => "failed"
  | WfStatus.CANCELLED => "cancelled"

/-- Serialised string back to status. -/
def wf_status_of_str : String → Option WfStatus
  | "not_started" => some WfStatus.NOT_STARTED
  | "running" => some WfStatus.RUNNING
  | "paused" => some WfStatus.PAUSED
  | "completed" => some WfStatus.COMPLETED
  | "failed" => some WfStatus.FAILED
  | "cancelled" => some WfStatus.CANCELLED
  | _ => none

/-- Step status to serialised string. -/
def step_status_str : StepStatus → String
  | StepStatus.PENDING => "pending"
  | StepStatus.RUNNING => "running"
  | StepStatus.COMPLETED => "completed"
  | StepStatus.FAILED => "failed"

/-- Serialised string back to step status. -/
def step_status_of_str : String → Option StepStatus
  | "pending" => some StepStatus.PENDING
  | "running" => some StepStatus.RUNNING
  | "completed" => some StepStatus.COMPLETED
  | "failed" => some StepStatus.FAILED
  | _ => none

/-- Optional timestamp to JSON (ISO-8601 UTC datetimes modelled as epoch
seconds; None persists as null). -/
def encOptInt : Option Int → Json
  | none => Json.null
  | some n => Json.num n

/-- JSON back to optional timestamp; timezone-naive values are already
normalised to UTC in this model. -/
def decOptInt : Json → Option (Option Int)
  | Json.null => some none
  | Json.num n => some (some n)
  | _ => none

/-- Optional string to JSON. -/
def encOptStr : Option String → Json
  | none => Json.null
  | some s => Json.str s

/-- JSON back to optional string. -/
def decOptStr : Json → Option (Option String)
  | Json.null => some none
  | Json.str s => some (some s)
  | _ => none

/-- Serialise one StepResult. -/
def encodeResult (r : StepResult) : Json :=
  Json.obj
    [("step_name", Json.str r.step_name),
     ("status", Json.str (step_status_str r.status)),
     ("output", r.output),
     ("error", encOptStr r.error),
     ("started_at", encOptInt r.started_at),
     ("completed_at", encOptInt r.completed_at),
     ("duration", encOptInt r.duration),
     ("retries", Json.num r.retries)]

/-- Deserialise one StepResult (the store reads records it wrote, so the
decoder accepts exactly the written shape). -/
def decodeResult : Json → Option StepResult
  | Json.obj
      [("step_name", Json.str n),
       ("status", Json.str st),
       ("output", out),
       ("error", err),
       ("started_at", sa),
       ("completed_at", ca),
       ("duration", du),
       ("retries", Json.num k)] =>
      match step_status_of_str st, decOptStr err, decOptInt sa, decOptInt ca,
          decOptInt du, k with
      | some status, some error, some started, some completed, some dur,
          Int.ofNat retries =>
          some { step_name := n, status := status, output := out,
                 error := error, started_at := started,
                 completed_at := completed, duration := dur,
                 retries := retries }
      | _, _, _, _, _, _ => none
  | _ => none

/-- Serialise the ordered step results. -/
def encodeResults (rs : List StepResult) : Json :=
  Json.arr (rs.map encodeResult)

/-- Deserialise a list of StepResults. -/
def decodeResultList : List Json → Option (List StepResult)
  | [] => some []
  | j :: rest =>
      match decodeResult j, decodeResultList rest with
      | some r, some rs => some (r :: rs)
      | _, _ => none

/-- Serialise the variable bindings. -/
def encodeVars (vars : List (String × String)) : Json :=
  Json.obj (vars.map (fun kv => (kv.1, Json.str kv.2)))

/-- Deserialise variable bindings. -/
def decodeVarFields : List (String × Json) → Option (List (String × String))
  | [] => some []
  | (k, Json.str v) :: rest =>
      (decodeVarFields rest).map (fun vs => (k, v) :: vs)
  | _ => none

/-- Serialise a WorkflowState to its run file content. -/
def encodeState (st : WorkflowState) : Json :=
  Json.obj
    [("workflow_name", Json.str st.workflow_name),
     ("run_id", Json.str st.run_id),
     ("status", Json.str (wf_status_str st.status)),
     ("current_step", Json.num st.current_step),
     ("step_results", encodeResults st.step_results),
     ("pending_approval", encOptStr st.pending_approval),
     ("variables", encodeVars st.vars),
     ("started_at", encOptInt st.started_at),
     ("updated_at", encOptInt st.updated_at),
     ("completed_at", encOptInt st.completed_at),
     ("error", encOptStr st.error)]

/-- An integer back to a step index. -/
def decodeNat : Int → Option Nat
  | Int.ofNat n => some n
  | _ => none

/-- Field lookup in a serialised object. -/
def lookupFields : List (String × Json) → String → Option Json
  | [], _ => none
  | (k', v) :: rest, k => if k' = k then some v else lookupFields rest k

/-- Field access on a JSON object. -/
def getField (j : Json) (k : String) : Option Json :=
  match j with
  | Json.obj fields => lookupFields fields k
  | _ => none

/-- A JSON string value. -/
def asStr : Json → Option String
  | Json.str s => some s
  | _ => none

/-- A JSON number value. -/
def asNum : Json → Option Int
  | Json.num n => some n
  | _ => none

/-- A JSON array value. -/
def asArr : Json → Option (List Json)
  | Json.arr xs => some xs
  | _ => none

/-- A JSON object value. -/
def asObj : Json → Option (List (String × Json))
  | Json.obj fs => some fs
  | _ => none

/-- Deserialise a WorkflowState from its run file content. -/
def decodeState (j : Json) : Option WorkflowState :=
  ((getField j "workflow_name").bind asStr).bind fun wn =>
  ((getField j "run_id").bind asStr).bind fun rid =>
  (((getField j "status").bind asStr).bind wf_status_of_str).bind fun status =>
  (((getField j "current_step").bind asNum).bind decodeNat).bind fun cur =>
  (((getField j "step_results").bind asArr).bind decodeResultList).bind fun rs =>
  ((getField j "pending_approval").bind decOptStr).bind fun pending =>
  (((getField j "variables").bind asObj).bind decodeVarFields).bind fun vars =>
  ((getField j "started_at").bind decOptInt).bind fun started =>
  ((getField j "updated_at").bind decOptInt).bind fun updated =>
  ((getField j "completed_at").bind decOptInt).bind fun completed =>
  ((getField j "error").bind decOptStr).bind fun error =>
  some { workflow_name := wn, run_id := rid, status := status,
         current_step := cur, step_results := rs,
         pending_approval := pending, vars := vars,
         started_at := started, updated_at := updated,
         completed_at := completed, error := error }

/-- The State Store error taxonomy entry for malformed identifiers. -/
inductive StoreErr where
  | invalidId
deriving Repr, DecidableEq

/-- The per-run file map keyed by run id. -/
def upsertFile : List (String × Json) → String → Json → List (String × Json)
  | [], k, v => [(k, v)]
  | (k', v') :: rest, k, v =>
      if k' = k then (k, v) :: rest else (k', v') :: upsertFile rest k v

/-- Lookup of a run file. -/
def lookupFile : List (String × Json) → String → Option Json
  | [], _ => none
  | (k', v) :: rest, k => if k' = k then some v else lookupFile rest k

/-- Modelled from the spec: save_state validates the identifier before any
filesystem access and then writes the serialised state under exactly that
identifier. -/
def save_state (run_id : String) (st : WorkflowState)
    (fs : List (String × Json)) : Except StoreErr (List (String × Json)) :=
  if is_valid_run_id run_id then
    Except.ok (upsertFile fs run_id (encodeState st))
  else Except.error StoreErr.invalidId

/-- Modelled from the spec: load_state validates the identifier before any
filesystem access, then reads and deserialises the state. -/
def load_state (run_id : String) (fs : List (String × Json)) :
    Except StoreErr (Option WorkflowState) :=
  if is_valid_run_id run_id then
    Except.ok (match lookupFile fs run_id with
      | some j => decodeState j
      | none => none)
  else Except.error StoreErr.invalidId

theorem decodeResult_encodeResult (r : StepResult) :
    decodeResult (encodeResult r) = some r := by
  cases r with
  | mk n st out err sa ca du k =>
    cases st <;> cases err <;> cases sa <;> cases ca <;> cases du <;>
      simp [encodeResult, decodeResult, step_status_str, step_status_of_str,
        encOptStr, decOptStr, encOptInt, decOptInt]

theorem decodeResultList_encode (rs : List StepResult) :
    decodeResultList (rs.map encodeResult) = some rs := by
  induction rs with
  | nil => simp [decodeResultList]
  | cons r rest ih => simp [decodeResultList, decodeResult_encodeResult r, ih]

theorem decodeVarFields_encode (vars : List (String × String)) :
    decodeVarFields (vars.map (fun kv => (kv.1, Json.str kv.2))) = some vars := by
  induction vars with
  | nil => simp [decodeVarFields]
  | cons kv rest ih => simp [decodeVarFields, ih]

theorem wf_status_roundtrip (s : WfStatus) :
    wf_status_of_str (wf_status_str s) = some s := by
  cases s <;> rfl

theorem decOptStr_encOptStr (x : Option String) :
    decOptStr (encOptStr x) = some x := by
  cases x <;> rfl

theorem decOptInt_encOptInt (x : Option Int) :
    decOptInt (encOptInt x) = some x := by
  cases x <;> rfl

theorem decodeState_encodeState (st : WorkflowState) :
    decodeState (encodeState st) = some st := by
  obtain ⟨wn, rid, status, cur, rs, pa, vars, sa, ua, ca, err⟩ := st
  simp [encodeState, decodeState, encodeResults, encodeVars, decodeNat,
    getField, lookupFields, asStr, asNum, asArr, asObj,
    wf_status_roundtrip, decOptStr_encOptStr, decOptInt_encOptInt,
    decodeResultList_encode, decodeVarFields_encode, Option.bind]

theorem lookupFile_upsertFile (fs : List (String × Json)) (k : String)
    (v : Json) : lookupFile (upsertFile fs k v) k = some v := by
  induction fs with
  | nil => simp [upsertFile, lookupFile]
  | cons kv rest ih =>
    by_cases h : kv.1 = k
    · simp [upsertFile, lookupFile, h]
    · simp [upsertFile, lookupFile, h, ih]

/-- C6: for every valid run identifier, loading after saving returns the
identical WorkflowState, every field (including None-valued optional
fields and the UTC-normalised timestamps) round-tripping exactly. -/
theorem save_load_roundtrip (run_id : String) (st : WorkflowState)
    (fs : List (String × Json)) (h : is_valid_run_id run_id = true) :
    save_state run_id st fs = Except.ok (upsertFile fs run_id (encodeState st))
    ∧ load_state run_id (upsertFile fs run_id (encodeState st))
        = Except.ok (some st) := by
  refine ⟨by simp [save_state, h], ?_⟩
  simp [load_state, h, lookupFile_upsertFile, decodeState_encodeState]

/-- A concrete state with None-valued optionals used by the C6 witness. -/
def wsC6 : WorkflowState :=
  { workflow_name := "demo", run_id := "demo-1f2e3d4c",
    status := WfStatus.RUNNING, current_step := 1,
    step_results :=
      [{ step_name := "build", status := StepStatus.COMPLETED,
         output := Json.obj [("stdout", Json.str "ok"),
           ("stderr", Json.str ""), ("return_code", Json.num 0)],
         error := none, started_at := some 100, completed_at := some 101,
         duration := some 1, retries := 0 }],
    pending_approval := none, vars := [("env", "prod")],
    started_at := some 100, updated_at := some 101, completed_at := none,
    error := none }

theorem foldl_no_slash (cs : List Char) (acc : List Char)
    (h : ∀ c ∈ cs, c ≠ '/') :
    cs.foldl (fun acc c => if c = '/' then [] else acc ++ [c]) acc
      = acc ++ cs := by
  induction cs generalizing acc with
  | nil => simp
  | cons c rest ih =>
    have hc : c ≠ '/' := h c (List.mem_cons_self _ _)
    rw [List.foldl_cons, if_neg hc, ih _ (fun d hd => h d (List.mem_cons_of_mem _ hd))]
    simp

/-- C4: the store accepts a run identifier only when it already matches the
letters-digits-hyphen-underscore format (so stripping path components is the
identity on it), and it is then used unchanged as the storage key; any other
identifier (e.g. one containing ../etc/passwd or a null byte) makes both
save_state and load_state fail with the Invalid-identifier error before any
file is touched, and is never truncated into a different identifier. -/
theorem run_id_validation (run_id : String) (st : WorkflowState)
    (fs : List (String × Json)) :
    (is_valid_run_id run_id = true →
        strip_path_components run_id = run_id ∧
        run_id ≠ "" ∧ run_id.toList.all validRunIdChar = true ∧
        save_state run_id st fs
          = Except.ok (upsertFile fs run_id (encodeState st)))
    ∧ (is_valid_run_id run_id = false →
        save_state run_id st fs = Except.error StoreErr.invalidId ∧
        load_state run_id fs = Except.error StoreErr.invalidId) := by
  constructor
  · intro h
    have h1 := (Bool.and_eq_true _ _).mp h
    have hne : run_id ≠ "" := by simpa using h1.1
    have hall : run_id.toList.all validRunIdChar = true := h1.2
    refine ⟨?_, hne, hall, by simp [save_state, h]⟩
    have hns : ∀ c ∈ run_id.toList, c ≠ '/' := by
      intro c hc
      have := (List.all_eq_true.mp hall) c hc
      intro hslash
      rw [hslash] at this
      exact absurd this (by decide)
    show String.mk _ = run_id
    rw [foldl_no_slash _ _ hns]
    cases run_id
    rfl
  · intro h
    have h' : ¬ is_valid_run_id run_id = true := by simp [h]
    exact ⟨by simp [save_state, h'], by simp [load_state, h']⟩

/-- C4 witness: ../etc/passwd and a null-byte identifier are rejected by
both store operations; a well-formed identifier is stored under exactly
itself. -/
theorem run_id_validation_witness :
    (save_state "../etc/passwd" wsC6 [] = Except.error StoreErr.invalidId
      ∧ load_state "../etc/passwd" [] = Except.error StoreErr.invalidId)
    ∧ save_state "run id" wsC6 [] = Except.error StoreErr.invalidId
    ∧ strip_path_components "build-42_a" = "build-42_a"
    ∧ save_state "build-42_a" wsC6 []
        = Except.ok (upsertFile [] "build-42_a" (encodeState wsC6)) :=
  ⟨(run_id_validation "../etc/passwd" wsC6 []).2 (by decide),
   ((run_id_validation "run id" wsC6 []).2 (by decide)).1,
   ((run_id_validation "build-42_a" wsC6 []).1 (by decide)).1,
   ((run_id_validation "build-42_a" wsC6 []).1 (by decide)).2.2.2⟩

/-- C6 witness: a concrete state with None-valued optionals round-trips
through an empty store. -/
theorem save_load_roundtrip_witness :
    save_state "demo-1f2e3d4c" wsC6 []
      = Except.ok (upsertFile [] "demo-1f2e3d4c" (encodeState wsC6))
    ∧ load_state "demo-1f2e3d4c" (upsertFile [] "demo-1f2e3d4c" (encodeState wsC6))
        = Except.ok (some wsC6) :=
  save_load_roundtrip "demo-1f2e3d4c" wsC6 [] (by decide)

/-! Modelled from the spec: the Expression Evaluator (section 4.4), a
restricted single-grammar matcher.  It is a total Lean function, so it can
never raise; every non-matching or unresolvable input takes one of the
explicit false branches below. -/

/-- A value resolved from the evaluation context. -/
inductive EvalValue where
  | int (n : Int) : EvalValue
  | str (s : String) : EvalValue
deriving Repr, DecidableEq

/-- The six comparison operators of the gate-condition grammar. -/
inductive CompOp where
  | eq | ne | lt | gt | le | ge
deriving Repr, DecidableEq

/-- A literal of the grammar: an integer or a quoted string. -/
inductive Literal where
  | int (n : Int) : Literal
  | str (s : String) : Literal
deriving Repr, DecidableEq

/-- The evaluation context: a tree of named values. -/
inductive CtxVal where
  | leaf (v : EvalValue) : CtxVal
  | node (fields : List (String × CtxVal)) : CtxVal

/-- First binding of a name among context fields. -/
def ctxFind : List (String × CtxVal) → String → Option CtxVal
  | [], _ => none
  | (k', v) :: rest, k => if k' = k then some v else ctxFind rest k

/-- Resolve a segment path in the context. -/
def resolve_path (ctx : CtxVal) : List String → Option EvalValue
  | [] =>
      match ctx with
      | CtxVal.leaf v => some v
      | CtxVal.node _ => none
  | k :: rest =>
      match ctx with
      | CtxVal.leaf _ => none
      | CtxVal.node fields =>
          match ctxFind fields k with
          | some sub => resolve_path sub rest
          | none => none

/-- A character ending a dotted path segment. -/
def isSegBreak (c : Char) : Bool := c = '.' || c = '['

/-- Leading identifier of a path and the rest. -/
def identSpan (cs : List Char) : List Char × List Char :=
  (cs.takeWhile (fun c => !isSegBreak c), cs.dropWhile (fun c => !isSegBreak c))

/-- Remaining segments of a path: .ident or a bracketed quoted name. -/
def parsePathRest : Nat → List Char → Option (List String)
  | 0, _ => none
  | _ + 1, [] => some []
  | fuel + 1, c :: rest =>
      if c = '.' then
        if (identSpan rest).1 = [] then none
        else (parsePathRest fuel (identSpan rest).2).map
          (fun segs => String.mk (identSpan rest).1 :: segs)
      else if c = '[' then
        match rest with
        | q :: rest2 =>
            if q = '\x27' ∨ q = '"' then
              match rest2.dropWhile (fun d => d ≠ q) with
              | _ :: ']' :: rest3 =>
                  (parsePathRest fuel rest3).map
                    (fun segs => String.mk (rest2.takeWhile (fun d => d ≠ q)) :: segs)
              | _ => none
            else none
        | [] => none
      else none

/-- Parse a dotted/bracketed accessor path into its segments. -/
def parse_path (p : String) : Option (List String) :=
  if (identSpan p.toList).1 = [] then none
  else (parsePathRest (p.length + 1) (identSpan p.toList).2).map
    (fun segs => String.mk (identSpan p.toList).1 :: segs)

/-- Whether pat occurs at the start of the character list. -/
def chStarts : List Char → List Char → Bool
  | [], _ => true
  | _ :: _, [] => false
  | pc :: ps, c :: cs => pc = c && chStarts ps cs

/-- Split at the first occurrence of pat, dropping it. -/
def splitFirstAt (pat : List Char) : List Char → Option (List Char × List Char)
  | [] => none
  | c :: rest =>
      if chStarts pat (c :: rest) then some ([], (c :: rest).drop pat.length)
      else (splitFirstAt pat rest).map (fun pr => (c :: pr.1, pr.2))

/-- Strip spaces at both ends. -/
def trimWs (cs : List Char) : List Char :=
  (((cs.dropWhile (fun c => c = ' ')).reverse.dropWhile (fun c => c = ' ')).reverse)

/-- The operator table, two-character operators first. -/
def op_table : List (List Char × CompOp) :=
  [(" == ".toList, CompOp.eq), (" != ".toList, CompOp.ne),
   (" <= ".toList, CompOp.le), (" >= ".toList, CompOp.ge),
   (" < ".toList, CompOp.lt), (" > ".toList, CompOp.gt)]

/-- Find the first listed operator occurring in the condition. -/
def findComparison : List (List Char × CompOp) → List Char →
    Option (List Char × CompOp × List Char)
  | [], _ => none
  | (pat, op) :: rest, cs =>
      match splitFirstAt pat cs with
      | some pr => some (pr.1, op, pr.2)
      | none => findComparison rest cs

/-- Numeric value of a digit string. -/
def digitsValN (cs : List Char) : Nat :=
  cs.foldl (fun n c => n * 10 + (c.toNat - 48)) 0

/-- Non-empty all-digit check. -/
def all_digits (cs : List Char) : Bool :=
  cs ≠ [] && cs.all (fun c => c.isDigit)

/-- Parse an integer or single/double-quoted string literal. -/
def parse_literal (cs : List Char) : Option Literal :=
  match cs with
  | [] => none
  | c :: rest =>
      if c = '\x27' ∨ c = '"' then
        match rest.getLast? with
        | some d => if d = c then some (Literal.str (String.mk rest.dropLast))
                    else none
        | none => none
      else if c = '-' then
        if all_digits rest then some (Literal.int (-(digitsValN rest : Int)))
        else none
      else if all_digits (c :: rest) then
        some (Literal.int (digitsValN (c :: rest)))
      else none

/-- Parse a full gate condition: path, operator, literal. -/
def parse_condition (cond : String) :
    Option (List String × CompOp × Literal) :=
  match findComparison op_table cond.toList with
  | none => none
  | some (lhs, op, rhs) =>
      match parse_path (String.mk (trimWs lhs)) with
      | none => none
      | some segs =>
          match parse_literal (trimWs rhs) with
          | none => none
          | some lit => some (segs, op, lit)

/-- Lexicographic order on character lists by code point. -/
def strLtList : List Char → List Char → Bool
  | [], [] => false
  | [], _ :: _ => true
  | _ :: _, [] => false
  | a :: as, b :: bs =>
      if a.toNat < b.toNat then true
      else if b.toNat < a.toNat then false
      else strLtList as bs

/-- Compare a resolved value against a literal (mixed types are false). -/
def compare_values : EvalValue → CompOp → Literal → Bool
  | EvalValue.int a, op, Literal.int b =>
      match op with
      | CompOp.eq => a = b
      | CompOp.ne => a ≠ b
      | CompOp.lt => a < b
      | CompOp.gt => b < a
      | CompOp.le => a ≤ b
      | CompOp.ge => b ≤ a
  | EvalValue.str a, op, Literal.str b =>
      match op with
      | CompOp.eq => a = b
      | CompOp.ne => a ≠ b
      | CompOp.lt => strLtList a.toList b.toList
      | CompOp.gt => strLtList b.toList a.toList
      | CompOp.le => !strLtList b.toList a.toList
      | CompOp.ge => !strLtList a.toList b.toList
  | _, _, _ => false

/-- Evaluate a gate condition against a context; unparsable conditions and
unresolvable paths evaluate to false. -/
def eval_condition (cond : String) (ctx : CtxVal) : Bool :=
  match parse_condition cond with
  | none => false
  | some (segs, op, lit) =>
      match resolve_path ctx segs with
      | none => false
      | some v => compare_values v op lit

mutual

/-- JSON payloads exposed to the evaluator as context values. -/
def jsonToCtx : Json → CtxVal
  | Json.str s => CtxVal.leaf (EvalValue.str s)
  | Json.num n => CtxVal.leaf (EvalValue.int n)
  | Json.bool b => CtxVal.leaf (EvalValue.int (if b then 1 else 0))
  | Json.null => CtxVal.leaf (EvalValue.str "None")
  | Json.arr _ => CtxVal.node []
  | Json.obj fields => CtxVal.node (jsonFieldsToCtx fields)

/-- Object fields exposed as context fields. -/
def jsonFieldsToCtx : List (String × Json) → List (String × CtxVal)
  | [] => []
  | (k, v) :: rest => (k, jsonToCtx v) :: jsonFieldsToCtx rest

end

/-- The severity string of one finding record. -/
def severity_of (j : Json) : Option String :=
  match j with
  | Json.obj fields =>
      match lookupFields fields "severity" with
      | some (Json.str sev) => some sev
      | _ => none
  | _ => none

/-- The findings list of a step output, empty when absent. -/
def findings_of_output (j : Json) : List Json :=
  match j with
  | Json.obj fields =>
      match lookupFields fields "findings" with
      | some (Json.arr xs) => xs
      | _ => []
  | _ => []

/-- Occurrences of one severity across all step outputs. -/
def findings_count (results : List StepResult) (sev : String) : Nat :=
  (results.map (fun r =>
    ((findings_of_output r.output).filter
      (fun j => severity_of j == some sev)).length)).sum

/-- One StepResult exposed to the evaluator. -/
def step_result_ctx (r : StepResult) : CtxVal :=
  CtxVal.node
    [("status", CtxVal.leaf (EvalValue.str (step_status_str r.status))),
     ("output", jsonToCtx r.output),
     ("error", CtxVal.leaf (EvalValue.str (r.error.getD "None")))]

/-- Modelled from the spec: the evaluation context built from the run state:
steps (latest result per name wins), the synthesized findings counters, the
variables map, and the variables at top level. -/
def build_context (st : WorkflowState) : CtxVal :=
  CtxVal.node (
    [("steps", CtxVal.node
        (st.step_results.reverse.map (fun r => (r.step_name, step_result_ctx r)))),
     ("findings", CtxVal.node
        [("critical", CtxVal.leaf (EvalValue.int (findings_count st.step_results "critical"))),
         ("high", CtxVal.leaf (EvalValue.int (findings_count st.step_results "high"))),
         ("medium", CtxVal.leaf (EvalValue.int (findings_count st.step_results "medium"))),
         ("low", CtxVal.leaf (EvalValue.int (findings_count st.step_results "low")))]),
     ("variables", CtxVal.node
        (st.vars.map (fun kv => (kv.1, CtxVal.leaf (EvalValue.str kv.2)))))]
    ++ st.vars.map (fun kv => (kv.1, CtxVal.leaf (EvalValue.str kv.2))))

/-- C5: the gate-condition evaluator is a total Boolean function (hence it
never raises); a condition outside the single comparison grammar evaluates
to false, a condition whose left-hand path does not resolve evaluates to
false, and it evaluates to true only through a parsed comparison whose path
resolves. -/
theorem eval_condition_fail_closed (cond : String) (ctx : CtxVal) :
    (parse_condition cond = none → eval_condition cond ctx = false)
    ∧ (∀ segs op lit, parse_condition cond = some (segs, op, lit) →
        resolve_path ctx segs = none → eval_condition cond ctx = false)
    ∧ (eval_condition cond ctx = true →
        ∃ segs op lit v, parse_condition cond = some (segs, op, lit)
          ∧ resolve_path ctx segs = some v
          ∧ compare_values v op lit = true) := by
  refine ⟨fun h => by simp [eval_condition, h], ?_, ?_⟩
  · intro segs op lit hp hr
    simp [eval_condition, hp, hr]
  · intro h
    rcases hp : parse_condition cond with _ | t
    · simp only [eval_condition, hp] at h
      exact absurd h (by decide)
    · obtain ⟨segs, op, lit⟩ := t
      rcases hr : resolve_path ctx segs with _ | v
      · simp only [eval_condition, hp, hr] at h
        exact absurd h (by decide)
      · simp only [eval_condition, hp, hr] at h
        exact ⟨segs, op, lit, v, rfl, hr, h⟩

/-- C5 witness: a non-grammar condition evaluates to false, and a
well-formed condition whose path is missing from the context evaluates to
false. -/
theorem eval_condition_fail_closed_witness :
    eval_condition "rm -rf; not a comparison" (build_context wsC6) = false
    ∧ eval_condition "steps.deploy.status == \x27completed\x27"
        (build_context wsC6) = false :=
  ⟨(eval_condition_fail_closed "rm -rf; not a comparison"
      (build_context wsC6)).1 (by decide),
   (eval_condition_fail_closed "steps.deploy.status == \x27completed\x27"
      (build_context wsC6)).2.1
      ["steps", "deploy", "status"] CompOp.eq (Literal.str "completed")
      (by decide) (by decide)⟩

/-! Modelled from the spec: the Execution Engine and Gate Subsystem
(sections 4.2 and 4.3).  Shell execution is an external effect, modelled
by an oracle mapping the fully substituted command string to its outcome;
wall-clock time is an explicit parameter.  A RunStore is the per-run
persisted pair of state file and approval-request file. -/

/-- Outcome of invoking a shell command. -/
inductive ShellOutcome where
  | exited (rc : Int) (stdout stderr : String) : ShellOutcome
  | timedout : ShellOutcome
deriving Repr, DecidableEq

/-- The external shell: substituted command string to outcome. -/
def ShellEnv : Type := String → ShellOutcome

/-- shlex.quote-style escaping of a substituted value. -/
def shell_escape (v : String) : String :=
  "\x27" ++ String.mk (v.toList.foldr
    (fun c acc =>
      if c = '\x27' then '\x27' :: '"' :: '\x27' :: '"' :: '\x27' :: acc
      else c :: acc) []) ++ "\x27"

/-- Replace every occurrence of pat (non-overlapping, left to right). -/
def replaceAllAux (pat rep : List Char) : Nat → List Char → List Char
  | 0, cs => cs
  | _ + 1, [] => []
  | fuel + 1, c :: rest =>
      if chStarts pat (c :: rest) then
        rep ++ replaceAllAux pat rep fuel ((c :: rest).drop pat.length)
      else c :: replaceAllAux pat rep fuel rest

/-- str.replace. -/
def py_replace (s pat rep : String) : String :=
  String.mk (replaceAllAux pat.toList rep.toList (s.length + 1) s.toList)

/-- Substitute every "\x7b\x7b name \x7d\x7d" token; values are
shell-escaped exactly when the target is a shell command. -/
def substitute_vars (template : String) (vars : List (String × String))
    (esc : Bool) : String :=
  vars.foldl (fun acc kv =>
    py_replace acc ("\x7b\x7b " ++ kv.1 ++ " \x7d\x7d")
      (if esc then shell_escape kv.2 else kv.2)) template

/-- The step kind tag as serialised into descriptors. -/
def step_kind_str : StepKind → String
  | StepKind.COMMAND => "command"
  | StepKind.AGENT => "agent"
  | StepKind.SHELL => "shell"
  | StepKind.PARALLEL => "parallel"

/-- The shell result payload. -/
def shell_output (stdout stderr : String) (rc : Int) : Json :=
  Json.obj [("stdout", Json.str stdout), ("stderr", Json.str stderr),
    ("return_code", Json.num rc)]

/-- The deferred-execution descriptor for COMMAND/AGENT steps. -/
def descriptor_output (kind target : String)
    (inputs : List (String × String)) : Json :=
  Json.obj [("kind", Json.str kind), ("target", Json.str target),
    ("inputs", Json.obj (inputs.map (fun kv => (kv.1, Json.str kv.2)))),
    ("requires", Json.str "external")]

/-- Split a character list at a separator (Python str.split(sep)). -/
def splitOnChar (sep : Char) : List Char → List (List Char)
  | [] => [[]]
  | c :: rest =>
      match splitOnChar sep rest with
      | [] => [[c]]
      | g :: gs => if c = sep then [] :: g :: gs else (c :: g) :: gs

/-- target.split(","). -/
def py_split_comma (s : String) : List String :=
  (splitOnChar ',' s.toList).map String.mk

/-- The descriptor for a PARALLEL step, naming the re-split targets. -/
def parallel_output (targets : List String) : Json :=
  Json.obj [("kind", Json.str "parallel"),
    ("targets", Json.arr (targets.map Json.str)),
    ("requires", Json.str "external")]

/-- Resolve one step target: (succeeded, output payload, error text). -/
def exec_target (env : ShellEnv) (step : WorkflowStep)
    (vars : List (String × String)) : Bool × Json × String :=
  match step.kind with
  | StepKind.SHELL =>
      match env (substitute_vars step.target vars true) with
      | ShellOutcome.exited rc out err =>
          if rc = 0 then (true, shell_output out err rc, "")
          else (false, shell_output out err rc, out ++ err)
      | ShellOutcome.timedout =>
          (false, Json.null,
            "Step timed out after " ++ toString step.timeout_seconds ++ " seconds")
  | StepKind.COMMAND =>
      (true, descriptor_output "command" step.target
        (step.inputs.map (fun kv => (kv.1, substitute_vars kv.2 vars false))), "")
  | StepKind.AGENT =>
      (true, descriptor_output "agent" step.target
        (step.inputs.map (fun kv => (kv.1, substitute_vars kv.2 vars false))), "")
  | StepKind.PARALLEL =>
      (true, parallel_output (py_split_comma step.target), "")

/-- The per-run persisted pair: state file and approval-request file. -/
structure RunStore where
  ws : WorkflowState
  approval : Option ApprovalRequest
deriving Repr

/-- Gate Subsystem: create_approval_request stamps the request time and, for
TIMEOUT gates with a duration, the expiry. -/
def create_approval_request (now : Int) (run_id step_name : String)
    (gate : ApprovalGate) : ApprovalRequest :=
  { run_id := run_id, step_name := step_name, gate := gate,
    requested_at := now,
    expires_at :=
      if gate.kind = GateKind.TIMEOUT then gate.timeout_seconds.map (now + ·)
      else none,
    approved_by := none, approved_at := none,
    rejected_by := none, rejected_at := none, rejection_reason := none }

/-- Pause the workflow at a gate: set PAUSED, record the awaiting step, and
overwrite the per-run approval request. -/
def pause_at_gate (now : Int) (rs : RunStore) (step : WorkflowStep)
    (g : ApprovalGate) : RunStore × Bool :=
  ({ ws := { rs.ws with
       status := WfStatus.PAUSED
       pending_approval := some step.name
       updated_at := some now },
     approval := some (create_approval_request now rs.ws.run_id step.name g) },
   false)

/-- Gate evaluation after a completed step. -/
def handle_gate (now : Int) (rs : RunStore) (step : WorkflowStep)
    (g : ApprovalGate) : RunStore × Bool :=
  match g.kind with
  | GateKind.MANUAL => pause_at_gate now rs step g
  | GateKind.TIMEOUT => pause_at_gate now rs step g
  | GateKind.CONDITIONAL =>
      if eval_condition (g.condition.getD "") (build_context rs.ws) then
        (rs, true)
      else if g.fallback = "fail" then
        ({ rs with ws := { rs.ws with
            status := WfStatus.FAILED
            error := some ("Gate condition not met: " ++ g.condition.getD "")
            updated_at := some now } }, false)
      else if g.fallback = "skip" then (rs, false)
      else pause_at_gate now rs step g

/-- Execution Engine: execute_step, the core transition function. -/
def execute_step (env : ShellEnv) (now : Int) (defn : WorkflowDefinition)
    (rs : RunStore) (idx : Nat) : RunStore × Bool :=
  match defn.steps[idx]? with
  | none =>
      ({ rs with ws := { rs.ws with
          status := WfStatus.COMPLETED
          completed_at := some now
          updated_at := some now } }, false)
  | some step =>
      let ws0 := { rs.ws with
        status := WfStatus.RUNNING
        current_step := idx
        updated_at := some now }
      let tr := exec_target env step ws0.vars
      if tr.1 then
        let ws1 := { ws0 with step_results := ws0.step_results ++
          [{ step_name := step.name, status := StepStatus.COMPLETED,
             output := tr.2.1, error := none, started_at := some now,
             completed_at := some now, duration := some 0, retries := 0 }] }
        match step.gate with
        | none => ({ rs with ws := ws1 }, true)
        | some g => handle_gate now { rs with ws := ws1 } step g
      else
        let ws1 := { ws0 with step_results := ws0.step_results ++
          [{ step_name := step.name, status := StepStatus.FAILED,
             output := tr.2.1, error := some tr.2.2, started_at := some now,
             completed_at := some now, duration := some 0, retries := 0 }] }
        if step.continue_on_failure then ({ rs with ws := ws1 }, true)
        else
          ({ rs with ws := { ws1 with
              status := WfStatus.FAILED
              error := some ("Step \x27" ++ step.name ++ "\x27 failed: " ++ tr.2.2)
              completed_at := some now } }, false)

/-- Execution Engine: start builds and persists the initial state; the run
identifier is the definition name plus a random 8-hex-character suffix. -/
def start (now : Int) (defn : WorkflowDefinition) (suffix : String)
    (vars : List (String × String)) : RunStore :=
  { ws := { workflow_name := defn.name
            run_id := defn.name ++ "-" ++ suffix
            status := WfStatus.NOT_STARTED
            current_step := 0
            step_results := []
            pending_approval := none
            vars := vars
            started_at := some now
            updated_at := some now
            completed_at := none
            error := none },
    approval := none }

/-- Execution Engine: approve requires a pending request; it resolves the
request, flips the state to RUNNING and clears pending_approval, persisting
both.  The first component is the returned state (none = not found). -/
def approve (now : Int) (rs : RunStore) (approved_by : String) :
    Option WorkflowState × RunStore :=
  match rs.approval with
  | some req =>
      if is_pending req then
        let req' := { req with
          approved_by := some approved_by
          approved_at := some now }
        let ws' := { rs.ws with
          status := WfStatus.RUNNING
          pending_approval := none
          updated_at := some now }
        (some ws', { ws := ws', approval := some req' })
      else (none, rs)
  | none => (none, rs)

/-- Execution Engine: reject marks the request rejected with the reason and
flips the state to FAILED with an explanatory error. -/
def reject (now : Int) (rs : RunStore) (rejected_by reason : String) :
    Option WorkflowState × RunStore :=
  match rs.approval with
  | some req =>
      if is_pending req then
        let req' := { req with
          rejected_by := some rejected_by
          rejected_at := some now
          rejection_reason := some reason }
        let ws' := { rs.ws with
          status := WfStatus.FAILED
          error := some ("Approval rejected: " ++ reason)
          updated_at := some now }
        (some ws', { ws := ws', approval := some req' })
      else (none, rs)
  | none => (none, rs)

/-- Gate Subsystem: check_timeout_gate is true only for a TIMEOUT gate whose
set expiry has passed. -/
def check_timeout_gate (now : Int) (req : ApprovalRequest) : Bool :=
  req.gate.kind = GateKind.TIMEOUT &&
    (match req.expires_at with
     | some e => decide (e ≤ now)
     | none => false)

/-- Auto-approval at resume time: a pending request of an expired TIMEOUT
gate is approved by "timeout". -/
def maybe_auto_approve (now : Int) (req : ApprovalRequest) : ApprovalRequest :=
  if check_timeout_gate now req && is_pending req then
    { req with
      approved_by := some "timeout"
      approved_at := some now }
  else req

/-- Execution Engine: resume; a paused run whose TIMEOUT request has expired
is auto-approved (approved_by = "timeout"); once the request is resolved the
state flips back to RUNNING and pending_approval is cleared. -/
def resume (now : Int) (rs : RunStore) : RunStore :=
  if rs.ws.status ≠ WfStatus.PAUSED then rs
  else
    match rs.approval with
    | none => rs
    | some req =>
        if is_pending (maybe_auto_approve now req) then
          { rs with approval := some (maybe_auto_approve now req) }
        else
          { ws := { rs.ws with
              status := WfStatus.RUNNING
              pending_approval := none
              updated_at := some now },
            approval := some (maybe_auto_approve now req) }

/-- The external driver loop of section 5: repeatedly invoke execute_step
until it signals no continuation; returns the final store and the indices of
the steps that were executed. -/
def drive_from (env : ShellEnv) (now : Int) (defn : WorkflowDefinition) :
    List WorkflowStep → RunStore → Nat → RunStore × List Nat
  | [], rs, idx => ((execute_step env now defn rs idx).1, [])
  | _ :: restRem, rs, idx =>
      let out := execute_step env now defn rs idx
      if out.2 then
        let r := drive_from env now defn restRem out.1 (idx + 1)
        (r.1, idx :: r.2)
      else (out.1, [idx])

/-- Drive a run from its first step to completion. -/
def run_to_completion (env : ShellEnv) (now : Int)
    (defn : WorkflowDefinition) (rs : RunStore) : RunStore × List Nat :=
  drive_from env now defn defn.steps rs 0

/-- C7: approve on a run whose request is pending resolves the request with
the given approver, flips the state to RUNNING and clears pending_approval;
a second approve on the now-resolved request returns the not-found result
and changes neither the request nor the WorkflowState. -/
theorem approve_once_then_not_found (now now2 : Int) (rs : RunStore)
    (u u2 : String) (req : ApprovalRequest)
    (hreq : rs.approval = some req) (hp : is_pending req = true) :
    (approve now rs u).1 = some (approve now rs u).2.ws
    ∧ (approve now rs u).2.ws.status = WfStatus.RUNNING
    ∧ (approve now rs u).2.ws.pending_approval = none
    ∧ (approve now rs u).2.approval
        = some { req with
                 approved_by := some u
                 approved_at := some now }
    ∧ approve now2 (approve now rs u).2 u2 = (none, (approve now rs u).2) := by
  have h1 : approve now rs u
      = (some { rs.ws with
                status := WfStatus.RUNNING
                pending_approval := none
                updated_at := some now },
         { ws := { rs.ws with
                   status := WfStatus.RUNNING
                   pending_approval := none
                   updated_at := some now },
           approval := some { req with
                              approved_by := some u
                              approved_at := some now } }) := by
    simp [approve, hreq, hp]
  refine ⟨by simp [h1], by simp [h1], by simp [h1], by simp [h1], ?_⟩
  rw [h1]
  simp [approve, is_pending]

/-- The MANUAL gate used in the C7 witness. -/
def gateC7 : ApprovalGate :=
  { kind := GateKind.MANUAL, message := "deploy to prod?",
    timeout_seconds := none, condition := none, fallback := "fail",
    approvers := [], notify := false }

/-- The pending request used in the C7 witness. -/
def reqC7 : ApprovalRequest :=
  create_approval_request 50 "demo-1f2e3d4c" "deploy" gateC7

/-- The paused run used in the C7 witness. -/
def rsC7 : RunStore :=
  { ws := { wsC6 with
            status := WfStatus.PAUSED
            pending_approval := some "deploy" },
    approval := some reqC7 }

/-- C7 witness: approving the pending request as alice resolves it and
resumes the run; a second approve as bob is a not-found no-op. -/
theorem approve_once_then_not_found_witness :
    (approve 60 rsC7 "alice").1 = some (approve 60 rsC7 "alice").2.ws
    ∧ (approve 60 rsC7 "alice").2.ws.status = WfStatus.RUNNING
    ∧ (approve 60 rsC7 "alice").2.ws.pending_approval = none
    ∧ (approve 60 rsC7 "alice").2.approval
        = some { reqC7 with
                 approved_by := some "alice"
                 approved_at := some 60 }
    ∧ approve 61 (approve 60 rsC7 "alice").2 "bob"
        = (none, (approve 60 rsC7 "alice").2) :=
  approve_once_then_not_found 60 61 rsC7 "alice" "bob" reqC7 rfl (by decide)

/-- The right-hand side of the paused invariant: a step is recorded as
awaiting approval and an unresolved request for it exists. -/
def pendingRhs (pa : Option String) (ap : Option ApprovalRequest) : Prop :=
  ∃ s, pa = some s ∧
    ∃ req, ap = some req ∧ req.step_name = s ∧ is_pending req = true

/-- The invariant of section 3: a run is PAUSED exactly when an unresolved
(or not-yet-auto-approved) ApprovalRequest exists for its recorded pending
step. -/
def PausedInv (rs : RunStore) : Prop :=
  rs.ws.status = WfStatus.PAUSED ↔
    pendingRhs rs.ws.pending_approval rs.approval

theorem pendingRhs_none (ap : Option ApprovalRequest) :
    ¬ pendingRhs none ap := by
  rintro ⟨s, hs, _⟩
  exact Option.noConfusion hs

theorem pendingRhs_resolved (pa : Option String) (r : ApprovalRequest)
    (hf : is_pending r = false) : ¬ pendingRhs pa (some r) := by
  rintro ⟨s, _, req, heq, _, hpend⟩
  cases Option.some.inj heq
  rw [hf] at hpend
  exact Bool.noConfusion hpend

theorem inv_mk_not_paused (ws : WorkflowState) (ap : Option ApprovalRequest)
    (hs : ws.status ≠ WfStatus.PAUSED)
    (hr : ¬ pendingRhs ws.pending_approval ap) :
    PausedInv { ws := ws, approval := ap } :=
  ⟨fun hc => absurd hc hs, fun hx => absurd hx hr⟩

theorem pause_at_gate_inv (now : Int) (rs : RunStore) (step : WorkflowStep)
    (g : ApprovalGate) : PausedInv (pause_at_gate now rs step g).1 := by
  refine ⟨fun _ => ?_, fun _ => rfl⟩
  exact ⟨step.name, rfl,
    create_approval_request now rs.ws.run_id step.name g, rfl, rfl, rfl⟩

/-- The transition system of the engine: runs begin with start; the driver
loop of section 5 invokes execute_step only on non-paused runs; approve,
reject, and resume may be invoked at any time. -/
inductive Reachable (defn : WorkflowDefinition) : RunStore → Prop where
  | start' (now : Int) (suffix : String) (vars : List (String × String)) :
      Reachable defn (start now defn suffix vars)
  | exec' (env : ShellEnv) (now : Int) (idx : Nat) (rs : RunStore) :
      Reachable defn rs → rs.ws.status ≠ WfStatus.PAUSED →
      Reachable defn (execute_step env now defn rs idx).1
  | approve' (now : Int) (u : String) (rs : RunStore) :
      Reachable defn rs → Reachable defn (approve now rs u).2
  | reject' (now : Int) (u reason : String) (rs : RunStore) :
      Reachable defn rs → Reachable defn (reject now rs u reason).2
  | resume' (now : Int) (rs : RunStore) :
      Reachable defn rs → Reachable defn (resume now rs)

theorem start_inv (now : Int) (defn : WorkflowDefinition) (suffix : String)
    (vars : List (String × String)) :
    PausedInv (start now defn suffix vars) :=
  ⟨fun hc => WfStatus.noConfusion hc, fun hr => absurd hr (pendingRhs_none _)⟩

theorem execute_step_inv (env : ShellEnv) (now : Int)
    (defn : WorkflowDefinition) (idx : Nat) (rs : RunStore)
    (h : PausedInv rs) (hst : rs.ws.status ≠ WfStatus.PAUSED) :
    PausedInv (execute_step env now defn rs idx).1 := by
  have hrhs : ¬ pendingRhs rs.ws.pending_approval rs.approval :=
    fun hr => hst (h.mpr hr)
  unfold execute_step
  split
  · exact inv_mk_not_paused _ _ (fun hc => WfStatus.noConfusion hc) hrhs
  · dsimp only
    split
    · split
      · exact inv_mk_not_paused _ _ (fun hc => WfStatus.noConfusion hc) hrhs
      · unfold handle_gate
        split
        · exact pause_at_gate_inv _ _ _ _
        · exact pause_at_gate_inv _ _ _ _
        · split
          · exact inv_mk_not_paused _ _ (fun hc => WfStatus.noConfusion hc) hrhs
          · split
            · exact inv_mk_not_paused _ _ (fun hc => WfStatus.noConfusion hc) hrhs
            · split
              · exact inv_mk_not_paused _ _ (fun hc => WfStatus.noConfusion hc) hrhs
              · exact pause_at_gate_inv _ _ _ _
    · split
      · exact inv_mk_not_paused _ _ (fun hc => WfStatus.noConfusion hc) hrhs
      · exact inv_mk_not_paused _ _ (fun hc => WfStatus.noConfusion hc) hrhs

theorem approve_inv (now : Int) (u : String) (rs : RunStore)
    (h : PausedInv rs) : PausedInv (approve now rs u).2 := by
  unfold approve
  split
  · split
    · exact inv_mk_not_paused _ _ (fun hc => WfStatus.noConfusion hc)
        (pendingRhs_none _)
    · exact h
  · exact h

theorem reject_inv (now : Int) (u reason : String) (rs : RunStore)
    (h : PausedInv rs) : PausedInv (reject now rs u reason).2 := by
  unfold reject
  split
  · split
    · refine inv_mk_not_paused _ _ (fun hc => WfStatus.noConfusion hc)
        (pendingRhs_resolved _ _ ?_)
      simp [is_pending]
    · exact h
  · exact h

theorem maybe_auto_approve_step_name (now : Int) (req : ApprovalRequest) :
    (maybe_auto_approve now req).step_name = req.step_name := by
  unfold maybe_auto_approve
  split <;> rfl

theorem resume_inv (now : Int) (rs : RunStore) (h : PausedInv rs) :
    PausedInv (resume now rs) := by
  unfold resume
  split
  · exact h
  · rename_i hpz
    have hpz' : rs.ws.status = WfStatus.PAUSED := not_not.mp hpz
    split
    · exact h
    · rename_i req ha
      obtain ⟨s, hs, req0, heq0, hname, hpend0⟩ := h.mp hpz'
      rw [ha] at heq0
      cases Option.some.inj heq0
      split
      · rename_i hpend1
        refine ⟨fun _ => ⟨s, hs, maybe_auto_approve now req, rfl, ?_, hpend1⟩,
          fun _ => hpz'⟩
        rw [maybe_auto_approve_step_name]
        exact hname
      · exact inv_mk_not_paused _ _ (fun hc => WfStatus.noConfusion hc)
          (pendingRhs_none _)

/-- C3: every engine-reachable run store satisfies the paused invariant:
the status is PAUSED iff pending_approval names a step for which an
unresolved (not-yet-auto-approved) ApprovalRequest exists; each operation
(start, driver-invoked execute_step, approve, reject, resume) preserves it. -/
theorem reachable_paused_inv (defn : WorkflowDefinition) (rs : RunStore)
    (h : Reachable defn rs) : PausedInv rs := by
  induction h with
  | start' now suffix vars => exact start_inv now defn suffix vars
  | exec' env now idx rs' _ hst ih => exact execute_step_inv env now defn idx rs' ih hst
  | approve' now u rs' _ ih => exact approve_inv now u rs' ih
  | reject' now u reason rs' _ ih => exact reject_inv now u reason rs' ih
  | resume' now rs' _ ih => exact resume_inv now rs' ih

/-- The definition used in the C3 witness. -/
def defnC3 : WorkflowDefinition :=
  { name := "demo", description := "", version := "1",
    steps := [], timeout_seconds := 3600 }

/-- C3 witness: the invariant holds at a concrete freshly started run. -/
theorem reachable_paused_inv_witness :
    PausedInv (start 0 defnC3 "0a1b2c3d" []) :=
  reachable_paused_inv defnC3 (start 0 defnC3 "0a1b2c3d" [])
    (Reachable.start' 0 "0a1b2c3d" [])

/-- C2: for any definition whose steps begin with an ungated shell step A
whose command exits 0 and a shell step B whose command exits 1 with
continue_on_failure false, driving execute_step to completion ends FAILED
with exactly the two results (A COMPLETED, B FAILED, B appended before
returning), the workflow error names B, and only steps 0 and 1 ever
execute, regardless of any further steps. -/
theorem two_shell_steps_fail_fast (env : ShellEnv) (now : Int)
    (dname ddesc dver : String) (dtimeout : Int)
    (A B : WorkflowStep) (rest : List WorkflowStep)
    (suffix : String) (vars : List (String × String))
    (outA errA outB errB : String)
    (hAk : A.kind = StepKind.SHELL) (hAg : A.gate = none)
    (hBk : B.kind = StepKind.SHELL) (hBc : B.continue_on_failure = false)
    (hA : env (substitute_vars A.target vars true)
        = ShellOutcome.exited 0 outA errA)
    (hB : env (substitute_vars B.target vars true)
        = ShellOutcome.exited 1 outB errB) :
    run_to_completion env now
        { name := dname, description := ddesc, version := dver,
          steps := A :: B :: rest, timeout_seconds := dtimeout }
        (start now
          { name := dname, description := ddesc, version := dver,
            steps := A :: B :: rest, timeout_seconds := dtimeout }
          suffix vars)
      = ({ ws := { workflow_name := dname
                   run_id := dname ++ "-" ++ suffix
                   status := WfStatus.FAILED
                   current_step := 1
                   step_results :=
                     [{ step_name := A.name
                        status := StepStatus.COMPLETED
                        output := shell_output outA errA 0
                        error := none
                        started_at := some now
                        completed_at := some now
                        duration := some 0
                        retries := 0 },
                      { step_name := B.name
                        status := StepStatus.FAILED
                        output := shell_output outB errB 1
                        error := some (outB ++ errB)
                        started_at := some now
                        completed_at := some now
                        duration := some 0
                        retries := 0 }]
                   pending_approval := none
                   vars := vars
                   started_at := some now
                   updated_at := some now
                   completed_at := some now
                   error := some ("Step \x27" ++ B.name ++ "\x27 failed: "
                     ++ (outB ++ errB)) },
           approval := none },
         [0, 1]) := by
  simp [run_to_completion, drive_from, execute_step, exec_target, start,
    hAk, hAg, hBk, hBc, hA, hB, shell_output]

/-- The shell oracle used by the C2 witness: run-a succeeds, everything
else exits 1. -/
def envC2 : ShellEnv := fun c =>
  if c = "run-a" then ShellOutcome.exited 0 "ok" ""
  else ShellOutcome.exited 1 "" "boom"

/-- Witness step A: an ungated shell step whose command succeeds. -/
def stepA : WorkflowStep :=
  { name := "A", kind := StepKind.SHELL, target := "run-a", inputs := [],
    outputs := [], gate := none, timeout_seconds := 600, retry_count := 0,
    continue_on_failure := false, depends_on := [] }

/-- Witness step B: a shell step whose command exits 1. -/
def stepB : WorkflowStep :=
  { name := "B", kind := StepKind.SHELL, target := "run-b", inputs := [],
    outputs := [], gate := none, timeout_seconds := 600, retry_count := 0,
    continue_on_failure := false, depends_on := [] }

/-- Witness step C: a third step that must never execute. -/
def stepC : WorkflowStep :=
  { name := "C", kind := StepKind.SHELL, target := "run-c", inputs := [],
    outputs := [], gate := none, timeout_seconds := 600, retry_count := 0,
    continue_on_failure := false, depends_on := [] }

/-- C2 witness: a concrete [A, B, C] pipeline ends FAILED after executing
exactly steps 0 and 1. -/
theorem two_shell_steps_fail_fast_witness :
    run_to_completion envC2 10
        { name := "demo", description := "", version := "1",
          steps := stepA :: stepB :: [stepC], timeout_seconds := 3600 }
        (start 10
          { name := "demo", description := "", version := "1",
            steps := stepA :: stepB :: [stepC], timeout_seconds := 3600 }
          "9e8f7a6b" [])
      = ({ ws := { workflow_name := "demo"
                   run_id := "demo" ++ "-" ++ "9e8f7a6b"
                   status := WfStatus.FAILED
                   current_step := 1
                   step_results :=
                     [{ step_name := stepA.name
                        status := StepStatus.COMPLETED
                        output := shell_output "ok" "" 0
                        error := none
                        started_at := some 10
                        completed_at := some 10
                        duration := some 0
                        retries := 0 },
                      { step_name := stepB.name
                        status := StepStatus.FAILED
                        output := shell_output "" "boom" 1
                        error := some ("" ++ "boom")
                        started_at := some 10
                        completed_at := some 10
                        duration := some 0
                        retries := 0 }]
                   pending_approval := none
                   vars := []
                   started_at := some 10
                   updated_at := some 10
                   completed_at := some 10
                   error := some ("Step \x27" ++ stepB.name ++ "\x27 failed: "
                     ++ ("" ++ "boom")) },
           approval := none },
         [0, 1]) :=
  two_shell_steps_fail_fast envC2 10 "demo" "" "1" 3600 stepA stepB [stepC]
    "9e8f7a6b" [] "ok" "" "" "boom" rfl rfl rfl rfl (by decide) (by decide)

end Workflow
